import Mathlib

/-
Shallow embedding of the aniflixx analytics worker.

Write path: src/routes/tracking.ts (the revision headed
"Fixed with single index for Analytics Engine"): validateTrackingEvent,
enrichTrackingData, isRevenueEvent, isContentEvent, routeEventToDataset and
the three dataset shapers trackRevenueEvent / trackContentEvent /
trackUserBehaviorEvent, plus the /track/batch handler.

Read path: src/routes/analytics.ts (the revision headed
"Fixed with lowercase table names and correct COUNT syntax"): the
/api/revenue/:studioId aggregation and the cache-gate control flow.

Modelling conventions:
- JavaScript numbers are modelled as rationals (ℚ); the code never uses
  NaN/Infinity arithmetic on the fields the claims touch.
- A possibly-absent field is an Option; the JavaScript `x || d` idiom on
  strings and numbers is modelled by jsOrStr / jsOrNum below (0 and ""
  are falsy, so they also fall back to the default, exactly as in JS).
- Loosely typed JSON fields (the validator inspects `typeof`) are
  modelled by JsVal.
-/

namespace Aniflixx

/-- JSON-ish scalar for the loosely typed `event` / `userId` fields. -/
inductive JsVal where
  | undef : JsVal
  | str : String → JsVal
  | num : ℚ → JsVal
deriving DecidableEq, Repr

/-- JavaScript truthiness for JsVal: undefined, "" and 0 are falsy. -/
def JsVal.truthy : JsVal → Bool
  | .undef => false
  | .str s => s ≠ ""
  | .num n => n ≠ 0

/-- Result of the JavaScript test `typeof v === "string"`. -/
def JsVal.isString : JsVal → Bool
  | .str _ => true
  | _ => false

/-- Value of `v.length` when v is a string (only queried on strings). -/
def JsVal.strLength : JsVal → ℕ
  | .str s => s.length
  | _ => 0

/-- Coercion used after validation has established `typeof v === "string"`. -/
def JsVal.asString : JsVal → String
  | .str s => s
  | _ => ""

/-- Model of the JavaScript idiom `s || d` for an optional string field. -/
def jsOrStr (v : Option String) (d : String) : String :=
  match v with
  | none => d
  | some s => if s = "" then d else s

/-- Model of the JavaScript idiom `n || d` for an optional numeric field. -/
def jsOrNum (v : Option ℚ) (d : ℚ) : ℚ :=
  match v with
  | none => d
  | some n => if n = 0 then d else n

/-- TrackingEvent: the raw inbound payload (src/types.ts), restricted to the
fields read by the tracking pipeline. `event` and `userId` are kept loosely
typed because validateTrackingEvent inspects their runtime type. -/
structure TrackingEvent where
  event : JsVal := .undef
  userId : JsVal := .undef
  studioId : Option String := none
  sessionId : Option String := none
  timestamp : Option ℚ := none
  paymentMethod : Option String := none
  currency : Option String := none
  contentId : Option String := none
  chapterId : Option String := none
  flickId : Option String := none
  contentType : Option String := none
  seriesId : Option String := none
  quality : Option String := none
  referrer : Option String := none
  source : Option String := none
  medium : Option String := none
  amount : Option ℚ := none
  coins : Option ℚ := none
  tax : Option ℚ := none
  fee : Option ℚ := none
  value : Option ℚ := none
  duration : Option ℚ := none
  score : Option ℚ := none
  pageNumber : Option ℚ := none
  watchTime : Option ℚ := none
  totalPages : Option ℚ := none
  readingTime : Option ℚ := none
  bufferingTime : Option ℚ := none
  scrollDepth : Option ℚ := none
  bitrate : Option ℚ := none
  completionRate : Option ℚ := none
  engagement : Option ℚ := none
deriving DecidableEq, Repr

/-- Embeds validateTrackingEvent (src/routes/tracking.ts): four checks in
order, first failure wins, null on success. -/
def validateTrackingEvent (e : TrackingEvent) : Option String :=
  if ¬ e.event.truthy then some "Missing required field: event"
  else if ¬ e.userId.truthy then some "Missing required field: userId"
  else if ¬ e.event.isString ∨ 100 < e.event.strLength then some "Invalid event name"
  else if ¬ e.userId.isString ∨ 100 < e.userId.strLength then some "Invalid userId"
  else none

/-- CloudflareData (src/types.ts): request-derived geo metadata. The
latitude/longitude strings are modelled post parseFloat: none stands for an
absent or unparseable coordinate (parseFloat gives NaN, which `|| 0` sends
to 0). -/
structure CloudflareData where
  country : Option String := none
  city : Option String := none
  region : Option String := none
  timezone : Option String := none
  latitude : Option ℚ := none
  longitude : Option ℚ := none
  asn : Option ℚ := none
  colo : Option String := none
deriving DecidableEq, Repr

/-- Request headers consumed by enrichTrackingData. -/
structure RequestMeta where
  ip : Option String := none
  userAgent : Option String := none
deriving DecidableEq, Repr

/-- EnrichedTrackingData (src/types.ts): the event after enrichment. The
`event` and `userId` fields are plain strings here because enrichment runs
only on events that passed validation. -/
structure EnrichedTrackingData where
  event : String
  userId : String
  studioId : Option String := none
  sessionId : Option String := none
  timestamp : ℚ
  country : String
  city : String
  region : String
  timezone : String
  latitude : ℚ
  longitude : ℚ
  asn : ℚ
  colo : String
  ip : String
  userAgent : String
  paymentMethod : Option String := none
  currency : Option String := none
  contentId : Option String := none
  chapterId : Option String := none
  flickId : Option String := none
  contentType : Option String := none
  seriesId : Option String := none
  quality : Option String := none
  referrer : Option String := none
  source : Option String := none
  medium : Option String := none
  amount : Option ℚ := none
  coins : Option ℚ := none
  tax : Option ℚ := none
  fee : Option ℚ := none
  value : Option ℚ := none
  duration : Option ℚ := none
  score : Option ℚ := none
  pageNumber : Option ℚ := none
  watchTime : Option ℚ := none
  totalPages : Option ℚ := none
  readingTime : Option ℚ := none
  bufferingTime : Option ℚ := none
  scrollDepth : Option ℚ := none
  bitrate : Option ℚ := none
  completionRate : Option ℚ := none
  engagement : Option ℚ := none
deriving DecidableEq, Repr

/-- Embeds enrichTrackingData (src/routes/tracking.ts). `now` stands for
Date.now() at ingestion time; note `event.timestamp || Date.now()` keeps any
nonzero timestamp, negative ones included. -/
def enrichTrackingData (e : TrackingEvent) (cf : Option CloudflareData)
    (req : RequestMeta) (now : ℚ) : EnrichedTrackingData :=
  { event := e.event.asString
    userId := e.userId.asString
    studioId := e.studioId
    sessionId := e.sessionId
    timestamp := jsOrNum e.timestamp now
    country := jsOrStr (cf.bind (·.country)) "XX"
    city := jsOrStr (cf.bind (·.city)) "Unknown"
    region := jsOrStr (cf.bind (·.region)) "Unknown"
    timezone := jsOrStr (cf.bind (·.timezone)) "UTC"
    latitude := jsOrNum (cf.bind (·.latitude)) 0
    longitude := jsOrNum (cf.bind (·.longitude)) 0
    asn := jsOrNum (cf.bind (·.asn)) 0
    colo := jsOrStr (cf.bind (·.colo)) "Unknown"
    ip := jsOrStr req.ip "unknown"
    userAgent := jsOrStr req.userAgent "unknown"
    paymentMethod := e.paymentMethod
    currency := e.currency
    contentId := e.contentId
    chapterId := e.chapterId
    flickId := e.flickId
    contentType := e.contentType
    seriesId := e.seriesId
    quality := e.quality
    referrer := e.referrer
    source := e.source
    medium := e.medium
    amount := e.amount
    coins := e.coins
    tax := e.tax
    fee := e.fee
    value := e.value
    duration := e.duration
    score := e.score
    pageNumber := e.pageNumber
    watchTime := e.watchTime
    totalPages := e.totalPages
    readingTime := e.readingTime
    bufferingTime := e.bufferingTime
    scrollDepth := e.scrollDepth
    bitrate := e.bitrate
    completionRate := e.completionRate
    engagement := e.engagement }

/-- Decides whether the character list `sub` occurs at the head of `l`. -/
def headMatch : List Char → List Char → Bool
  | [], _ => true
  | _ :: _, [] => false
  | a :: as, b :: bs => a = b && headMatch as bs

/-- Decides whether `sub` occurs contiguously anywhere inside `l`; this is
the model of JavaScript String.prototype.includes. -/
def inclChars (sub : List Char) : List Char → Bool
  | [] => sub.isEmpty
  | b :: bs => headMatch sub (b :: bs) || inclChars sub bs

/-- Model of `s.includes(sub)` on strings. -/
def jsIncludes (s sub : String) : Bool :=
  inclChars sub.data s.data

/-- Embeds isRevenueEvent (src/routes/tracking.ts). -/
def isRevenueEvent (event : String) : Bool :=
  ["purchase_completed", "coins_purchased", "subscription_started",
   "subscription_cancelled", "payment_failed", "refund_processed"].any
      (fun e => jsIncludes event e)
    || jsIncludes event "revenue"
    || jsIncludes event "payment"

/-- Embeds isContentEvent (src/routes/tracking.ts). -/
def isContentEvent (event : String) : Bool :=
  ["chapter_opened", "chapter_completed", "page_viewed", "reading_session",
   "flick_started", "flick_completed", "watch_progress", "content_liked",
   "content_shared", "content_saved"].any (fun e => jsIncludes event e)
    || jsIncludes event "chapter"
    || jsIncludes event "flick"
    || jsIncludes event "episode"

/-- The three dataset categories an event can route to. -/
inductive EventCategory where
  | revenue : EventCategory
  | content : EventCategory
  | user_behavior : EventCategory
deriving DecidableEq, Repr

/-- Classification as performed by the dispatch chain in routeEventToDataset:
revenue first, then content, else user behavior. -/
def classify (event : String) : EventCategory :=
  if isRevenueEvent event then .revenue
  else if isContentEvent event then .content
  else .user_behavior

/-- AnalyticsEngineDataPoint (src/types.ts): the fixed-position write unit. -/
structure AnalyticsEngineDataPoint where
  blobs : List String
  doubles : List ℚ
  indexes : List String
deriving DecidableEq, Repr

/-- Embeds trackRevenueEvent (src/routes/tracking.ts): the record it writes
to the REVENUE_TRACKING dataset. -/
def trackRevenueEvent (d : EnrichedTrackingData) : AnalyticsEngineDataPoint :=
  { blobs :=
      [d.event,
       jsOrStr d.studioId "unknown",
       d.userId,
       d.country,
       d.city,
       jsOrStr d.paymentMethod "",
       jsOrStr d.currency "USD",
       jsOrStr d.contentId ""]
    doubles :=
      [jsOrNum d.amount 0,
       jsOrNum d.coins 0,
       jsOrNum d.tax 0,
       jsOrNum d.fee 0,
       d.timestamp,
       d.latitude,
       d.longitude]
    indexes := [jsOrStr d.studioId "unknown"] }

/-- Embeds trackContentEvent (src/routes/tracking.ts): the record it writes
to the STUDIO_ANALYTICS dataset. -/
def trackContentEvent (d : EnrichedTrackingData) : AnalyticsEngineDataPoint :=
  { blobs :=
      [d.event,
       jsOrStr d.contentId (jsOrStr d.chapterId (jsOrStr d.flickId "")),
       d.userId,
       d.country,
       d.city,
       jsOrStr d.contentType "",
       jsOrStr d.seriesId "",
       jsOrStr d.quality ""]
    doubles :=
      [jsOrNum d.pageNumber (jsOrNum d.watchTime 0),
       jsOrNum d.totalPages (jsOrNum d.duration 0),
       jsOrNum d.readingTime (jsOrNum d.bufferingTime 0),
       jsOrNum d.scrollDepth (jsOrNum d.bitrate 0),
       jsOrNum d.completionRate 0,
       jsOrNum d.engagement 0,
       d.timestamp]
    indexes := [jsOrStr d.studioId "unknown"] }

/-- Embeds trackUserBehaviorEvent (src/routes/tracking.ts): the record it
writes to the USER_BEHAVIOR dataset. -/
def trackUserBehaviorEvent (d : EnrichedTrackingData) : AnalyticsEngineDataPoint :=
  { blobs :=
      [d.event,
       d.userId,
       jsOrStr d.sessionId "",
       d.country,
       d.city,
       jsOrStr d.referrer "",
       jsOrStr d.source "",
       jsOrStr d.medium ""]
    doubles :=
      [jsOrNum d.value 1,
       jsOrNum d.duration 0,
       jsOrNum d.score 0,
       d.latitude,
       d.longitude,
       d.asn,
       d.timestamp]
    indexes := [jsOrStr d.studioId "global"] }

/-- Embeds the studioId defaulting step at the top of routeEventToDataset:
an absent or empty studioId is overwritten with "unknown" before dispatch. -/
def applyStudioDefault (d : EnrichedTrackingData) : EnrichedTrackingData :=
  if d.studioId = none ∨ d.studioId = some "" then { d with studioId := some "unknown" }
  else d

/-- The studio identifier the event carries after the defaulting step. -/
def dispatchStudio (d : EnrichedTrackingData) : String :=
  jsOrStr d.studioId "unknown"

/-- Embeds routeEventToDataset (src/routes/tracking.ts): default the
studioId, then build the record of the matching shaper. -/
def routeEventToDataset (d : EnrichedTrackingData) : AnalyticsEngineDataPoint :=
  let d := applyStudioDefault d
  if isRevenueEvent d.event then trackRevenueEvent d
  else if isContentEvent d.event then trackContentEvent d
  else trackUserBehaviorEvent d

/-- Per-item entry of the batch result list (the objects pushed to
`results` inside the /track/batch loop). -/
structure ItemResult where
  success : Bool
  tracked : Option String := none
  error : Option String := none
deriving DecidableEq, Repr

/-- Request-scoped context the batch handler threads through each
iteration: the Cloudflare geo data, the request headers and Date.now(). -/
structure BatchCtx where
  cf : Option CloudflareData := none
  req : RequestMeta := {}
  now : ℚ := 0
deriving DecidableEq, Repr

/-- Outcome of one iteration of the /track/batch loop as a function of the
item alone (plus whether its dataset write succeeds): validation failure
and write failure each yield a failure record, success echoes the event
name. -/
def itemOutcome (e : TrackingEvent) (writeOk : Bool) : ItemResult :=
  match validateTrackingEvent e with
  | some err => { success := false, error := some err }
  | none =>
      if writeOk then { success := true, tracked := some e.event.asString }
      else { success := false, error := some "write failed" }

/-- Embeds the for-loop of the /track/batch handler. `w i` tells whether
the dataset write for the item at position `i` succeeds (a false value
models writeDataPoint rejecting, caught by the per-item try/catch). The
second component collects the records whose write was attempted, in
order. -/
def batchLoop (ctx : BatchCtx) (w : ℕ → Bool) :
    List TrackingEvent → ℕ → List ItemResult × List AnalyticsEngineDataPoint
  | [], _ => ([], [])
  | e :: rest, i =>
      let tail := batchLoop ctx w rest (i + 1)
      match validateTrackingEvent e with
      | some err => ({ success := false, error := some err } :: tail.1, tail.2)
      | none =>
          let rcd := routeEventToDataset (enrichTrackingData e ctx.cf ctx.req ctx.now)
          if w i then
            ({ success := true, tracked := some e.event.asString } :: tail.1, rcd :: tail.2)
          else
            ({ success := false, error := some "write failed" } :: tail.1, rcd :: tail.2)

/-- Response of the /track/batch endpoint, flattened: status 400 carries
the error strings, status 200 carries the counters and per-item results.
`writes` records every dataset write the handler attempted. -/
structure BatchResponse where
  status : ℕ
  error : Option String := none
  details : Option String := none
  total : ℕ := 0
  successful : ℕ := 0
  failed : ℕ := 0
  results : List ItemResult := []
  writes : List AnalyticsEngineDataPoint := []
deriving DecidableEq, Repr

/-- Embeds the /track/batch handler (src/routes/tracking.ts). `none` for
the events payload models a body whose `events` is not an array. -/
def trackBatch (payload : Option (List TrackingEvent)) (ctx : BatchCtx)
    (w : ℕ → Bool) : BatchResponse :=
  match payload with
  | none =>
      { status := 400, error := some "Invalid batch",
        details := some "Events must be a non-empty array" }
  | some events =>
      if events.length = 0 then
        { status := 400, error := some "Invalid batch",
          details := some "Events must be a non-empty array" }
      else if 100 < events.length then
        { status := 400, error := some "Batch too large",
          details := some "Maximum 100 events per batch" }
      else
        let out := batchLoop ctx w events 0
        { status := 200
          total := events.length
          successful := (out.1.filter (fun r => r.success)).length
          failed := (out.1.filter (fun r => !r.success)).length
          results := out.1
          writes := out.2 }

/-- Row returned by queryRevenueDetails (src/routes/analytics.ts): column
aliases event_type, country, payment_method, revenue, coins, timestamp.
Fields are optional because the row mapping is open ended. -/
structure RevenueRow where
  event_type : Option String := none
  country : Option String := none
  payment_method : Option String := none
  revenue : Option ℚ := none
  coins : Option ℚ := none
  timestamp : Option ℚ := none
deriving DecidableEq, Repr

/-- Timeline bucket of the revenue endpoint, keyed by UTC day. The ISO
date string of the code is modelled by the day number ⌊ts / 86400000⌋. -/
structure DayAgg where
  dayKey : ℤ
  revenue : ℚ
  coins : ℚ
  transactions : ℕ
deriving DecidableEq, Repr

/-- Per-country bucket built by the revenue endpoint fold. -/
structure CountryAgg where
  country : String
  revenue : ℚ
  coins : ℚ
  transactions : ℕ
deriving DecidableEq, Repr

/-- Per-payment-method bucket built by the revenue endpoint fold. -/
structure MethodAgg where
  method : String
  revenue : ℚ
  transactions : ℕ
  percentage : ℚ := 0
deriving DecidableEq, Repr

/-- UTC day number of an epoch-milliseconds timestamp (stands for the
toISOString date truncation in the code). -/
def dayKeyOf (ts : ℚ) : ℤ := ⌊ts / 86400000⌋

/-- Inserts or updates the bucket of one day, preserving the insertion
order of the JavaScript Map. -/
def bumpDay : List DayAgg → ℤ → ℚ → ℚ → List DayAgg
  | [], k, rev, cns => [{ dayKey := k, revenue := rev, coins := cns, transactions := 1 }]
  | a :: as, k, rev, cns =>
      if a.dayKey = k then
        { a with revenue := a.revenue + rev, coins := a.coins + cns,
                 transactions := a.transactions + 1 } :: as
      else a :: bumpDay as k rev cns

/-- Inserts or updates the bucket of one country, preserving the insertion
order of the JavaScript Map. -/
def bumpCountry : List CountryAgg → String → ℚ → ℚ → List CountryAgg
  | [], c, rev, cns => [{ country := c, revenue := rev, coins := cns, transactions := 1 }]
  | a :: as, c, rev, cns =>
      if a.country = c then
        { a with revenue := a.revenue + rev, coins := a.coins + cns,
                 transactions := a.transactions + 1 } :: as
      else a :: bumpCountry as c rev cns

/-- Inserts or updates the bucket of one payment method, preserving the
insertion order of the JavaScript Map. -/
def bumpMethod : List MethodAgg → String → ℚ → List MethodAgg
  | [], m, rev => [{ method := m, revenue := rev, transactions := 1 }]
  | a :: as, m, rev =>
      if a.method = m then
        { a with revenue := a.revenue + rev, transactions := a.transactions + 1 } :: as
      else a :: bumpMethod as m rev

/-- Accumulator of the forEach over the rows of the revenue endpoint. -/
structure RevenueFold where
  timeline : List DayAgg := []
  byCountry : List CountryAgg := []
  byMethod : List MethodAgg := []
  totalRevenue : ℚ := 0
  totalCoins : ℚ := 0
  totalTransactions : ℕ := 0
deriving DecidableEq, Repr

/-- One iteration of the forEach in the /api/revenue/:studioId handler:
always bump the timeline bucket and the three totals; bump the country and
payment-method buckets only when the respective field is truthy. -/
def revenueStep (now : ℚ) (st : RevenueFold) (r : RevenueRow) : RevenueFold :=
  let ts := jsOrNum r.timestamp now
  let rev := jsOrNum r.revenue 0
  let cns := jsOrNum r.coins 0
  let st := { st with timeline := bumpDay st.timeline (dayKeyOf ts) rev cns }
  let st :=
    match r.country with
    | some c => if c = "" then st else { st with byCountry := bumpCountry st.byCountry c rev cns }
    | none => st
  let st :=
    match r.payment_method with
    | some m => if m = "" then st else { st with byMethod := bumpMethod st.byMethod m rev }
    | none => st
  { st with totalRevenue := st.totalRevenue + rev,
            totalCoins := st.totalCoins + cns,
            totalTransactions := st.totalTransactions + 1 }

/-- The whole forEach over the queried rows. -/
def revenueFold (now : ℚ) (rows : List RevenueRow) : RevenueFold :=
  rows.foldl (revenueStep now) {}

/-- Inserts an element into a list sorted by the Boolean comparator
`le` (placed before the first element it relates to). -/
def insertByRev {α : Type} (le : α → α → Bool) (x : α) : List α → List α
  | [] => [x]
  | y :: ys => if le x y then x :: y :: ys else y :: insertByRev le x ys

/-- Insertion sort by a Boolean comparator; models the JavaScript
`.sort((a, b) => ...)` calls of the analytics handlers. -/
def sortByComparator {α : Type} (le : α → α → Bool) : List α → List α
  | [] => []
  | x :: xs => insertByRev le x (sortByComparator le xs)

/-- Entry of the byCountry list in the response: the bucket plus the
derived avgTransaction. -/
structure CountryRevenue where
  country : String
  revenue : ℚ
  coins : ℚ
  transactions : ℕ
  avgTransaction : ℚ
deriving DecidableEq, Repr

/-- Model of JavaScript Math.round: round half toward positive infinity. -/
def jsRound (q : ℚ) : ℤ := ⌊q + 1 / 2⌋

/-- Model of `Math.round(q * 100) / 100`. -/
def round2 (q : ℚ) : ℚ := (jsRound (q * 100) : ℚ) / 100

/-- The byCountry list of the revenue response: add avgTransaction with the
transactions > 0 guard, sort descending by revenue, keep the top 20. -/
def byCountryOut (now : ℚ) (rows : List RevenueRow) : List CountryRevenue :=
  (sortByComparator (fun a b => decide (b.revenue ≤ a.revenue))
    ((revenueFold now rows).byCountry.map (fun c =>
      ({ country := c.country, revenue := c.revenue, coins := c.coins,
         transactions := c.transactions,
         avgTransaction :=
           if 0 < c.transactions then c.revenue / (c.transactions : ℚ)
           else 0 } : CountryRevenue)))).take 20

/-- The byMethod list of the revenue response: set the percentage with the
totalRevenue > 0 guard, then round it to two decimals while rebuilding the
objects, then sort descending by revenue. -/
def byMethodOut (now : ℚ) (rows : List RevenueRow) : List MethodAgg :=
  let total := (revenueFold now rows).totalRevenue
  sortByComparator (fun a b => decide (b.revenue ≤ a.revenue))
    ((((revenueFold now rows).byMethod.map (fun m =>
        { m with percentage := if 0 < total then m.revenue / total else 0 })).map
      (fun m => { m with percentage := round2 m.percentage })))

/-- The timeline list of the revenue response: sorted by most recent day
first, truncated to the queried number of days. -/
def timelineOut (now : ℚ) (rows : List RevenueRow) (days : ℕ) : List DayAgg :=
  (sortByComparator (fun a b => decide (b.dayKey ≤ a.dayKey))
    ((revenueFold now rows).timeline)).take days

/-- The summary object of the revenue response, with the
totalTransactions > 0 guard on avgTransaction. -/
structure RevenueSummary where
  total : ℚ
  coins : ℚ
  transactions : ℕ
  avgTransaction : ℚ
deriving DecidableEq, Repr

/-- Builds the summary of the revenue response. -/
def revenueSummary (now : ℚ) (rows : List RevenueRow) : RevenueSummary :=
  let f := revenueFold now rows
  { total := f.totalRevenue
    coins := f.totalCoins
    transactions := f.totalTransactions
    avgTransaction :=
      if 0 < f.totalTransactions then f.totalRevenue / (f.totalTransactions : ℚ) else 0 }

/-- The successful body of the /api/revenue/:studioId endpoint. -/
structure RevenueResponse where
  summary : RevenueSummary
  byCountry : List CountryRevenue
  byMethod : List MethodAgg
  timeline : List DayAgg
deriving DecidableEq, Repr

/-- Builds the whole revenue payload from the queried rows. -/
def revenueBody (now : ℚ) (rows : List RevenueRow) (days : ℕ) : RevenueResponse :=
  { summary := revenueSummary now rows
    byCountry := byCountryOut now rows
    byMethod := byMethodOut now rows
    timeline := timelineOut now rows days }

/-- Control flow of the /api/revenue/:studioId handler around its single
try/catch. A cache hit returns the cached value. On a miss the body is
computed, then `CACHE.put` runs still inside the try block, so a rejected
put (putOk = false) falls into the catch, which answers with the 500
ErrorResponse instead of the computed body. -/
def revenueEndpoint (cached : Option RevenueResponse) (rows : List RevenueRow)
    (now : ℚ) (days : ℕ) (putOk : Bool) :
    Except (String × ℕ) RevenueResponse :=
  match cached with
  | some v => .ok v
  | none =>
      let body := revenueBody now rows days
      if putOk then .ok body
      else .error ("Failed to retrieve revenue data", 500)

/-- Modelled from the spec: the eight revenue keywords of the classifier
contract, as one list. -/
def revenueKeywords : List String :=
  ["purchase_completed", "coins_purchased", "subscription_started",
   "subscription_cancelled", "payment_failed", "refund_processed",
   "revenue", "payment"]

/-- Modelled from the spec: the thirteen content keywords of the classifier
contract, as one list. -/
def contentKeywords : List String :=
  ["chapter_opened", "chapter_completed", "page_viewed", "reading_session",
   "flick_started", "flick_completed", "watch_progress", "content_liked",
   "content_shared", "content_saved", "chapter", "flick", "episode"]

/-- ASCII lowercase of one character. -/
def lowChar (c : Char) : Char :=
  if 65 ≤ c.toNat ∧ c.toNat ≤ 90 then Char.ofNat (c.toNat + 32) else c

/-- ASCII lowercase of a string. -/
def lowerStr (s : String) : String := ⟨s.data.map lowChar⟩

/-- Modelled from the spec: the reference classifier of the claim, which
matches the keywords against the LOWERCASED event name. -/
def classifyRefLower (event : String) : EventCategory :=
  if revenueKeywords.any (fun k => jsIncludes (lowerStr event) k) then .revenue
  else if contentKeywords.any (fun k => jsIncludes (lowerStr event) k) then .content
  else .user_behavior

/-- Modelled from the spec, amended: the same reference classifier but
matching against the event name as given, without lowercasing. -/
def classifyRef (event : String) : EventCategory :=
  if revenueKeywords.any (fun k => jsIncludes event k) then .revenue
  else if contentKeywords.any (fun k => jsIncludes event k) then .content
  else .user_behavior

/-- Modelled from the spec: the reading of "missing or empty" in the
validator claim — absent, or the empty string; a number is neither. -/
def missingOrEmpty : JsVal → Bool
  | .undef => true
  | .str s => s = ""
  | .num _ => false

/-- Modelled from the spec: the claim-reference validator, whose first two
rules fire exactly on a missing-or-empty field. -/
def validateSpecRef (e : TrackingEvent) : Option String :=
  if missingOrEmpty e.event then some "Missing required field: event"
  else if missingOrEmpty e.userId then some "Missing required field: userId"
  else if ¬ e.event.isString ∨ 100 < e.event.strLength then some "Invalid event name"
  else if ¬ e.userId.isString ∨ 100 < e.userId.strLength then some "Invalid userId"
  else none

/-- Row used by the cache-gate theorem. -/
def rowC7 : RevenueRow := { country := some "US", revenue := some 4 }

/-- C4 counterexample: the code classifier does not lowercase, so it
disagrees with the reference definition of the claim on the input
"PAYMENT": the code yields user_behavior, the lowercasing reference
yields revenue. -/
theorem classify_lowercase_counterexample :
    classify "PAYMENT" = .user_behavior
  ∧ classifyRefLower "PAYMENT" = .revenue
  ∧ classify "PAYMENT" ≠ classifyRefLower "PAYMENT" := by
  decide

/-- C4 (amended): classification is a total, deterministic, pure function
of the event name, equal to the reference keyword definition with substring
matching on the event name as given (no lowercasing); the revenue check
precedes the content check, and the concrete examples of the claim hold,
including the precedence example payment_for_chapter, which matches both
keyword families and classifies as revenue. -/
theorem classify_reference (e : String) :
    classify e = classifyRef e
  ∧ classify "purchase_completed" = .revenue
  ∧ classify "chapter_opened" = .content
  ∧ classify "login" = .user_behavior
  ∧ classify "payment_for_chapter" = .revenue
  ∧ isRevenueEvent "payment_for_chapter" = true
  ∧ isContentEvent "payment_for_chapter" = true := by
  refine ⟨?_, by decide, by decide, by decide, by decide, by decide, by decide⟩
  have h1 : isRevenueEvent e = revenueKeywords.any (fun k => jsIncludes e k) := by
    simp [isRevenueEvent, revenueKeywords, List.any_cons, List.any_nil, Bool.or_assoc]
  have h2 : isContentEvent e = contentKeywords.any (fun k => jsIncludes e k) := by
    simp [isContentEvent, contentKeywords, List.any_cons, List.any_nil, Bool.or_assoc]
  simp [classify, classifyRef, h1, h2]

/-- C7 (code bug): when the cache is cold and the aggregate computes, a
failing CACHE.put is caught by the single try/catch of the handler, which
answers with the 500 error response instead of the freshly computed body;
with a succeeding put the very same body is returned. -/
theorem cacheStoreFailure_fails_request :
    revenueEndpoint none [rowC7] 0 30 false
      = .error ("Failed to retrieve revenue data", 500)
  ∧ revenueEndpoint none [rowC7] 0 30 true = .ok (revenueBody 0 [rowC7] 30) := by
  exact ⟨rfl, rfl⟩

/-- Concrete inbound event carrying a negative timestamp. -/
def eventNegTs : TrackingEvent :=
  { event := .str "login", userId := .str "u", timestamp := some (-5) }

/-- Concrete inbound event carrying timestamp 7. -/
def eventTs7 : TrackingEvent :=
  { event := .str "a", userId := .str "b", timestamp := some 7 }

/-- C8 counterexample: `event.timestamp || Date.now()` keeps a negative
timestamp, while the claim demands the ingestion time for it; at timestamp
-5 and ingestion time 1000 the enriched timestamp is -5, not 1000. -/
theorem enrich_timestamp_counterexample :
    (enrichTrackingData eventNegTs none {} 1000).timestamp = -5
  ∧ ((-5 : ℚ) ≠ 1000) := by
  exact ⟨rfl, by decide⟩

/-- C8 (amended): the enriched timestamp equals the inbound timestamp
exactly when that field is present and a nonzero number (negative values
included), and equals the ingestion time for a missing or zero
timestamp. -/
theorem enrich_timestamp (e : TrackingEvent) (cf : Option CloudflareData)
    (req : RequestMeta) (now : ℚ) :
    (e.timestamp = none → (enrichTrackingData e cf req now).timestamp = now)
  ∧ (e.timestamp = some 0 → (enrichTrackingData e cf req now).timestamp = now)
  ∧ (∀ t, e.timestamp = some t → t ≠ 0 →
      (enrichTrackingData e cf req now).timestamp = t) := by
  refine ⟨fun h => ?_, fun h => ?_, fun t h ht => ?_⟩
  · simp [enrichTrackingData, jsOrNum, h]
  · simp [enrichTrackingData, jsOrNum, h]
  · simp [enrichTrackingData, jsOrNum, h, ht]

/-- C8 witness: the amended theorem applied at a concrete event carrying
timestamp 7 with ingestion time 42. -/
theorem enrich_timestamp_witness :
    (enrichTrackingData eventTs7 none {} 42).timestamp = 7 :=
  (enrich_timestamp eventTs7 none {} 42).2.2 7 rfl (by decide)

/-- C9 counterexample: at event = the number 0 (present, not a string), the
code validator answers "Missing required field: event" because 0 is falsy,
while the claim reference answers "Invalid event name". -/
theorem validate_falsy_counterexample :
    validateTrackingEvent { event := .num 0, userId := .str "u" }
      = some "Missing required field: event"
  ∧ validateSpecRef { event := .num 0, userId := .str "u" }
      = some "Invalid event name"
  ∧ validateTrackingEvent { event := .num 0, userId := .str "u" }
      ≠ validateSpecRef { event := .num 0, userId := .str "u" } := by
  decide

/-- C9 (amended): the validator checks its four rules in order, first
failure wins, with rules 1 and 2 firing on a falsy field (missing, empty,
or the number 0), rules 3 and 4 as the claim states them, and null exactly
when both fields are nonempty strings of length at most 100. -/
theorem validateTrackingEvent_rules (e : TrackingEvent) :
    (validateTrackingEvent e = none ↔
       (e.event.isString = true ∧ e.event.truthy = true ∧ e.event.strLength ≤ 100
        ∧ e.userId.isString = true ∧ e.userId.truthy = true ∧ e.userId.strLength ≤ 100))
  ∧ (e.event.truthy = false →
       validateTrackingEvent e = some "Missing required field: event")
  ∧ (e.event.truthy = true → e.userId.truthy = false →
       validateTrackingEvent e = some "Missing required field: userId")
  ∧ (e.event.truthy = true → e.userId.truthy = true →
       (e.event.isString = false ∨ 100 < e.event.strLength) →
       validateTrackingEvent e = some "Invalid event name")
  ∧ (e.event.truthy = true → e.userId.truthy = true →
       e.event.isString = true → e.event.strLength ≤ 100 →
       (e.userId.isString = false ∨ 100 < e.userId.strLength) →
       validateTrackingEvent e = some "Invalid userId") := by
  unfold validateTrackingEvent
  constructor
  · constructor
    · intro h
      by_cases h1 : e.event.truthy = true
      · by_cases h2 : e.userId.truthy = true
        · by_cases h3 : ¬ e.event.isString = true ∨ 100 < e.event.strLength
          · rw [if_neg (by simp [h1]), if_neg (by simp [h2]), if_pos h3] at h
            exact absurd h (by simp)
          · by_cases h4 : ¬ e.userId.isString = true ∨ 100 < e.userId.strLength
            · rw [if_neg (by simp [h1]), if_neg (by simp [h2]), if_neg h3,
                if_pos h4] at h
              exact absurd h (by simp)
            · push_neg at h3 h4
              exact ⟨h3.1, h1, h3.2, h4.1, h2, h4.2⟩
        · rw [if_neg (by simp [h1]), if_pos (by simpa using h2)] at h
          exact absurd h (by simp)
      · rw [if_pos (by simpa using h1)] at h
        exact absurd h (by simp)
    · rintro ⟨ha, hb, hc, hd, hu, hf⟩
      rw [if_neg (by simp [hb]), if_neg (by simp [hu]),
        if_neg (by simp [ha]; omega), if_neg (by simp [hd]; omega)]
  refine ⟨fun h => ?_, fun h1 h2 => ?_, fun h1 h2 h3 => ?_, fun h1 h2 h3 h4 h5 => ?_⟩
  · simp [h]
  · simp [h1, h2]
  · rcases h3 with h3 | h3 <;> simp [h1, h2, h3]
  · rcases h5 with h5 | h5 <;>
      simp [h1, h2, h3, h5, show ¬ (100 < e.event.strLength) by omega]

/-- C9 witness: the amended theorem applied at concrete inputs — a valid
event validates to null, and an event with a falsy (numeric zero) event
field fails with the first message. -/
theorem validateTrackingEvent_rules_witness :
    validateTrackingEvent { event := .str "login", userId := .str "u" } = none
  ∧ validateTrackingEvent { event := .num 0, userId := .num 3 }
      = some "Missing required field: event" :=
  ⟨(validateTrackingEvent_rules _).1.mpr (by decide),
   (validateTrackingEvent_rules _).2.1 (by decide)⟩

/-- Concrete enriched revenue event with studio "studio1". -/
def dRev : EnrichedTrackingData :=
  { event := "purchase_completed", userId := "u1", studioId := some "studio1",
    timestamp := 5, country := "US", city := "NY", region := "R",
    timezone := "UTC", latitude := 1, longitude := 2, asn := 3, colo := "C",
    ip := "i", userAgent := "ua", amount := some 10 }

/-- Concrete enriched user-behavior event without a studio. -/
def dBeh : EnrichedTrackingData :=
  { event := "login", userId := "u1", timestamp := 5, country := "XX",
    city := "Unknown", region := "Unknown", timezone := "UTC", latitude := 6,
    longitude := 7, asn := 8, colo := "Unknown", ip := "unknown",
    userAgent := "unknown" }

/-- Concrete enriched payment event without a studio. -/
def dPay : EnrichedTrackingData :=
  { event := "payment", userId := "u1", timestamp := 1, country := "XX",
    city := "c", region := "r", timezone := "UTC", latitude := 0,
    longitude := 0, asn := 0, colo := "x", ip := "i", userAgent := "ua" }

/-- C2: the revenue shaper emits exactly the claimed layout — eight string
fields [event, studioId, userId, country, city, paymentMethod,
currency(default USD), contentId], seven numeric fields [amount, coins,
tax, fee, timestamp, latitude, longitude], index [studioId] — with every
missing source field shaped to its zero value, and the field counts are
the same for every input. -/
theorem trackRevenueEvent_layout (d : EnrichedTrackingData) (s : String)
    (hs : d.studioId = some s) (hns : s ≠ "") :
    trackRevenueEvent d =
      { blobs := [d.event, s, d.userId, d.country, d.city,
                  jsOrStr d.paymentMethod "", jsOrStr d.currency "USD",
                  jsOrStr d.contentId ""]
        doubles := [jsOrNum d.amount 0, jsOrNum d.coins 0, jsOrNum d.tax 0,
                    jsOrNum d.fee 0, d.timestamp, d.latitude, d.longitude]
        indexes := [s] }
  ∧ (trackRevenueEvent { d with paymentMethod := none }).blobs.getD 5 "" = ""
  ∧ (trackRevenueEvent { d with currency := none }).blobs.getD 6 "" = "USD"
  ∧ (trackRevenueEvent { d with contentId := none }).blobs.getD 7 "" = ""
  ∧ (trackRevenueEvent { d with amount := none }).doubles.getD 0 0 = 0
  ∧ (trackRevenueEvent { d with coins := none }).doubles.getD 1 0 = 0
  ∧ (trackRevenueEvent { d with tax := none }).doubles.getD 2 0 = 0
  ∧ (trackRevenueEvent { d with fee := none }).doubles.getD 3 0 = 0
  ∧ (∀ d2 : EnrichedTrackingData, (trackRevenueEvent d2).blobs.length = 8
      ∧ (trackRevenueEvent d2).doubles.length = 7
      ∧ (trackRevenueEvent d2).indexes.length = 1) := by
  refine ⟨?_, ?_, ?_, ?_, ?_, ?_, ?_, ?_, fun d2 => ⟨rfl, rfl, rfl⟩⟩
  · simp [trackRevenueEvent, hs, jsOrStr, hns]
  all_goals simp [trackRevenueEvent, jsOrStr, jsOrNum]

/-- C2 witness: the layout theorem applied at a concrete enriched event. -/
theorem trackRevenueEvent_layout_witness :
    trackRevenueEvent dRev =
      { blobs := ["purchase_completed", "studio1", "u1", "US", "NY", "",
                  "USD", ""]
        doubles := [10, 0, 0, 0, 5, 1, 2]
        indexes := ["studio1"] } := by
  rw [(trackRevenueEvent_layout dRev "studio1" rfl (by decide)).1]
  decide

/-- C3 counterexample: the user-behavior shaper emits SEVEN numeric fields
[value, duration, score, latitude, longitude, asn, timestamp], not the four
[value, duration, score, timestamp] the claim lists; at a concrete enriched
event with latitude 6, longitude 7, asn 8 and timestamp 5 the doubles are
[1, 0, 0, 6, 7, 8, 5]. -/
theorem userBehaviorDoubles_counterexample :
    (trackUserBehaviorEvent dBeh).doubles = [1, 0, 0, 6, 7, 8, 5]
  ∧ (trackUserBehaviorEvent dBeh).doubles ≠ [1, 0, 0, 5] := by
  decide

/-- C3 (amended): the user-behavior shaper emits string fields
[event, userId, sessionId, country, city, referrer, source, medium],
numeric fields [value(default 1), duration, score, latitude, longitude,
asn, timestamp], and index [studioId defaulting to "global" when absent];
missing source fields shape to zero values and the field counts are the
same for every input. -/
theorem trackUserBehaviorEvent_layout (d : EnrichedTrackingData) :
    (trackUserBehaviorEvent d).blobs
        = [d.event, d.userId, jsOrStr d.sessionId "", d.country, d.city,
           jsOrStr d.referrer "", jsOrStr d.source "", jsOrStr d.medium ""]
  ∧ (trackUserBehaviorEvent d).doubles
        = [jsOrNum d.value 1, jsOrNum d.duration 0, jsOrNum d.score 0,
           d.latitude, d.longitude, d.asn, d.timestamp]
  ∧ (d.studioId = none → (trackUserBehaviorEvent d).indexes = ["global"])
  ∧ (∀ s, d.studioId = some s → s ≠ "" →
      (trackUserBehaviorEvent d).indexes = [s])
  ∧ (d.value = none → (trackUserBehaviorEvent d).doubles.getD 0 0 = 1)
  ∧ (d.sessionId = none → (trackUserBehaviorEvent d).blobs.getD 2 "" = "")
  ∧ (d.duration = none → (trackUserBehaviorEvent d).doubles.getD 1 0 = 0)
  ∧ (d.score = none → (trackUserBehaviorEvent d).doubles.getD 2 0 = 0)
  ∧ (∀ d2 : EnrichedTrackingData,
        (trackUserBehaviorEvent d2).blobs.length = 8
      ∧ (trackUserBehaviorEvent d2).doubles.length = 7
      ∧ (trackUserBehaviorEvent d2).indexes.length = 1) := by
  refine ⟨rfl, rfl, fun h => ?_, fun s hs hns => ?_, fun h => ?_, fun h => ?_,
    fun h => ?_, fun h => ?_, fun d2 => ⟨rfl, rfl, rfl⟩⟩ <;>
    simp [trackUserBehaviorEvent, jsOrStr, jsOrNum, *]

/-- C3 witness: the amended layout theorem applied at a concrete enriched
event with no studio and no explicit value. -/
theorem trackUserBehaviorEvent_layout_witness :
    (trackUserBehaviorEvent dBeh).indexes = ["global"]
  ∧ (trackUserBehaviorEvent dBeh).doubles.getD 0 0 = 1 :=
  ⟨(trackUserBehaviorEvent_layout dBeh).2.2.1 rfl,
   (trackUserBehaviorEvent_layout dBeh).2.2.2.2.1 rfl⟩

/-- Defaulting leaves the event name untouched. -/
lemma applyStudioDefault_event (d : EnrichedTrackingData) :
    (applyStudioDefault d).event = d.event := by
  unfold applyStudioDefault; split <;> rfl

/-- After the defaulting step the carried studio is dispatchStudio. -/
lemma applyStudioDefault_studioId (d : EnrichedTrackingData) :
    (applyStudioDefault d).studioId = some (dispatchStudio d) := by
  unfold applyStudioDefault dispatchStudio jsOrStr
  rcases h : d.studioId with _ | s
  · simp [h]
  · by_cases hs : s = "" <;> simp [h, hs]

/-- The dispatched studio identifier is never the empty string. -/
lemma dispatchStudio_ne (d : EnrichedTrackingData) : dispatchStudio d ≠ "" := by
  unfold dispatchStudio jsOrStr
  rcases h : d.studioId with _ | s
  · simp
  · by_cases hs : s = "" <;> simp [hs]

/-- C5: at dispatch time the studio identifier is non-empty — "unknown"
when the inbound studioId was absent or empty, the inbound value otherwise
— and the written record carries it in its index (and, for revenue events,
also in string field 2). -/
theorem routeEventToDataset_studio (d : EnrichedTrackingData) :
    dispatchStudio d ≠ ""
  ∧ (routeEventToDataset d).indexes = [dispatchStudio d]
  ∧ dispatchStudio { d with studioId := none } = "unknown"
  ∧ dispatchStudio { d with studioId := some "" } = "unknown"
  ∧ (∀ s, d.studioId = some s → s ≠ "" → dispatchStudio d = s)
  ∧ (isRevenueEvent d.event = true →
      (routeEventToDataset d).blobs.getD 1 "" = dispatchStudio d) := by
  have hne := dispatchStudio_ne d
  have hid := applyStudioDefault_studioId d
  refine ⟨hne, ?_, by simp [dispatchStudio, jsOrStr],
    by simp [dispatchStudio, jsOrStr],
    fun s hs hns => by simp [dispatchStudio, jsOrStr, hs, hns], fun hrev => ?_⟩
  · simp only [routeEventToDataset]
    split_ifs <;>
      simp [trackRevenueEvent, trackContentEvent, trackUserBehaviorEvent,
        hid, jsOrStr, hne]
  · simp only [routeEventToDataset, applyStudioDefault_event d, hrev, if_true]
    simp [trackRevenueEvent, hid, jsOrStr, hne]

/-- C5 witness: a payment event with no studioId routes with studio
"unknown" in both the index and string field 2. -/
theorem routeEventToDataset_studio_witness :
    (routeEventToDataset dPay).indexes = ["unknown"]
  ∧ (routeEventToDataset dPay).blobs.getD 1 "" = "unknown" := by
  have h := routeEventToDataset_studio dPay
  have hd : dispatchStudio dPay = "unknown" := by decide
  exact ⟨by rw [← hd]; exact h.2.1, by rw [← hd]; exact h.2.2.2.2.2 (by decide)⟩

/-- One unfolding step of the batch loop: the head result is exactly the
per-item outcome of the head event, independent of the remaining items. -/
lemma batchLoop_cons (ctx : BatchCtx) (w : ℕ → Bool) (e : TrackingEvent)
    (rest : List TrackingEvent) (i : ℕ) :
    (batchLoop ctx w (e :: rest) i).1
      = itemOutcome e (w i) :: (batchLoop ctx w rest (i + 1)).1 := by
  cases h : validateTrackingEvent e
  · by_cases hw : w i <;> simp [batchLoop, itemOutcome, h, hw]
  · simp [batchLoop, itemOutcome, h]

/-- The batch loop produces one result per event. -/
lemma batchLoop_length (ctx : BatchCtx) (w : ℕ → Bool) :
    ∀ (events : List TrackingEvent) (i : ℕ),
      ((batchLoop ctx w events i).1).length = events.length := by
  intro events
  induction events with
  | nil => intro i; rfl
  | cons e rest ih => intro i; rw [batchLoop_cons]; simp [ih]

/-- The j-th batch result is the per-item outcome of the j-th event. -/
lemma batchLoop_get? (ctx : BatchCtx) (w : ℕ → Bool) :
    ∀ (events : List TrackingEvent) (i j : ℕ),
      ((batchLoop ctx w events i).1).get? j
        = (events.get? j).map (fun e => itemOutcome e (w (i + j))) := by
  intro events
  induction events with
  | nil => intro i j; simp [batchLoop]
  | cons e rest ih =>
      intro i j
      cases j with
      | zero => simp [batchLoop_cons]
      | succ j =>
          have hidx : i + 1 + j = i + (j + 1) := by omega
          rw [batchLoop_cons]
          simpa [hidx] using ih (i + 1) j

/-- Concrete valid inbound event. -/
def goodEvent : TrackingEvent := { event := .str "login", userId := .str "user1" }

/-- Concrete invalid inbound event (missing event name). -/
def badEvent : TrackingEvent := { userId := .str "user1" }

/-- Batch of 100 events in which exactly item 50 (index 49) is invalid. -/
def batch100 : List TrackingEvent :=
  (List.range 100).map (fun i => if i = 49 then badEvent else goodEvent)

/-- Empty batch context for concrete runs. -/
def ctx0 : BatchCtx := {}

/-- C1: the batch endpoint rejects a non-array, empty, or over-100 payload
with a 400 before any write; otherwise it answers 200 with total equal to
the number of submitted events, successful and failed counts that add up
to the total, and a result list whose j-th entry is a function of the j-th
event (and its own write outcome) alone, so one item's failure never
aborts the others. -/
theorem trackBatch_contract (events : List TrackingEvent) (ctx : BatchCtx)
    (w : ℕ → Bool) :
    (trackBatch none ctx w).status = 400
  ∧ (trackBatch none ctx w).writes = []
  ∧ (trackBatch (some []) ctx w).status = 400
  ∧ (trackBatch (some []) ctx w).writes = []
  ∧ (100 < events.length →
      (trackBatch (some events) ctx w).status = 400
      ∧ (trackBatch (some events) ctx w).writes = [])
  ∧ (0 < events.length → events.length ≤ 100 →
      (trackBatch (some events) ctx w).status = 200
      ∧ (trackBatch (some events) ctx w).total = events.length
      ∧ (trackBatch (some events) ctx w).results.length = events.length
      ∧ (trackBatch (some events) ctx w).successful
          + (trackBatch (some events) ctx w).failed = events.length
      ∧ (∀ j, (trackBatch (some events) ctx w).results.get? j
          = (events.get? j).map (fun e => itemOutcome e (w j)))) := by
  refine ⟨rfl, rfl, rfl, rfl, fun h => ?_, fun h1 h2 => ?_⟩
  · have h0 : ¬ events.length = 0 := by omega
    simp [trackBatch, h0, h]
  · have h0 : ¬ events.length = 0 := by omega
    have hno : ¬ 100 < events.length := by omega
    have hred : trackBatch (some events) ctx w =
        { status := 200, total := events.length,
          successful :=
            (((batchLoop ctx w events 0).1).filter (fun r => r.success)).length,
          failed :=
            (((batchLoop ctx w events 0).1).filter (fun r => !r.success)).length,
          results := (batchLoop ctx w events 0).1,
          writes := (batchLoop ctx w events 0).2 } := by
      simp [trackBatch, h0, hno]
    refine ⟨?_, ?_, ?_, ?_, fun j => ?_⟩ <;> rw [hred]
    all_goals first
      | rfl
      | exact batchLoop_length ctx w events 0
      | (dsimp only
         rw [← batchLoop_length ctx w events 0]
         exact Eq.symm (List.length_eq_length_filter_add _))
      | (dsimp only
         simpa using batchLoop_get? ctx w events 0 j)

/-- C1 witness: a batch of 100 events where exactly item 50 fails
validation answers 200 with total 100, 99 successes and 1 failure. -/
theorem trackBatch_contract_witness :
    0 < batch100.length ∧ batch100.length ≤ 100
  ∧ (trackBatch (some batch100) ctx0 (fun _ => true)).status = 200
  ∧ (trackBatch (some batch100) ctx0 (fun _ => true)).total = 100
  ∧ (trackBatch (some batch100) ctx0 (fun _ => true)).successful = 99
  ∧ (trackBatch (some batch100) ctx0 (fun _ => true)).failed = 1 := by
  have h := (trackBatch_contract batch100 ctx0 (fun _ => true)).2.2.2.2.2
    (by decide) (by decide)
  exact ⟨by decide, by decide, h.1, by decide, by decide, by decide⟩

/-- The revenue a row contributes, as the code reads it: `row.revenue || 0`. -/
def rowRevenue (r : RevenueRow) : ℚ := jsOrNum r.revenue 0

/-- Whether `row.country` is truthy, i.e. present and non-empty. -/
def rowHasCountry (r : RevenueRow) : Bool :=
  match r.country with
  | some c => c ≠ ""
  | none => false

/-- The action of one row on the byCountry bucket list alone. -/
def countryStep (l : List CountryAgg) (r : RevenueRow) : List CountryAgg :=
  match r.country with
  | some c =>
      if c = "" then l
      else bumpCountry l c (jsOrNum r.revenue 0) (jsOrNum r.coins 0)
  | none => l

/-- The byCountry bucket list built by a row sequence from a start list. -/
def countryRun (l : List CountryAgg) (rows : List RevenueRow) : List CountryAgg :=
  rows.foldl countryStep l

/-- Summed revenue over byCountry buckets. -/
def sumCA (l : List CountryAgg) : ℚ := (l.map (fun c => c.revenue)).sum

/-- Summed revenue over the byCountry entries of the response. -/
def sumCR (l : List CountryRevenue) : ℚ := (l.map (fun c => c.revenue)).sum

/-- Inserting keeps the list a permutation of the cons. -/
lemma insertByRev_perm {α : Type} (le : α → α → Bool) (x : α) (l : List α) :
    List.Perm (insertByRev le x l) (x :: l) := by
  induction l with
  | nil => exact List.Perm.refl _
  | cons y ys ih =>
      unfold insertByRev
      by_cases h : le x y
      · simp [h]
      · simp only [h, if_false, ite_false]
        exact List.Perm.trans (List.Perm.cons y ih) (List.Perm.swap x y ys)

/-- The comparator sort permutes its input. -/
lemma sortByComparator_perm {α : Type} (le : α → α → Bool) (l : List α) :
    List.Perm (sortByComparator le l) l := by
  induction l with
  | nil => exact List.Perm.refl _
  | cons x xs ih =>
      exact List.Perm.trans (insertByRev_perm le x (sortByComparator le xs))
        (List.Perm.cons x ih)

/-- The revenueStep acts on the byCountry component as countryStep. -/
lemma revenueStep_byCountry (now : ℚ) (st : RevenueFold) (r : RevenueRow) :
    (revenueStep now st r).byCountry = countryStep st.byCountry r := by
  cases hc : r.country <;> cases hp : r.payment_method <;>
    simp [revenueStep, countryStep, hc, hp] <;> split_ifs <;> rfl

/-- The revenueStep adds the row revenue to totalRevenue. -/
lemma revenueStep_totalRevenue (now : ℚ) (st : RevenueFold) (r : RevenueRow) :
    (revenueStep now st r).totalRevenue = st.totalRevenue + rowRevenue r := by
  cases hc : r.country <;> cases hp : r.payment_method <;>
    simp [revenueStep, rowRevenue, hc, hp] <;> split_ifs <;> rfl

/-- The revenueStep counts every row in totalTransactions. -/
lemma revenueStep_totalTransactions (now : ℚ) (st : RevenueFold) (r : RevenueRow) :
    (revenueStep now st r).totalTransactions = st.totalTransactions + 1 := by
  cases hc : r.country <;> cases hp : r.payment_method <;>
    simp [revenueStep, hc, hp] <;> split_ifs <;> rfl

/-- The byCountry component of the whole fold is a countryRun. -/
lemma revenueFold_byCountry_run (now : ℚ) :
    ∀ (rows : List RevenueRow) (st : RevenueFold),
      (rows.foldl (revenueStep now) st).byCountry = countryRun st.byCountry rows := by
  intro rows
  induction rows with
  | nil => intro st; rfl
  | cons r rest ih =>
      intro st
      show ((rest.foldl (revenueStep now) (revenueStep now st r)).byCountry) = _
      rw [ih (revenueStep now st r), revenueStep_byCountry]
      rfl

/-- The totalRevenue of the whole fold sums every row revenue. -/
lemma revenueFold_totalRevenue (now : ℚ) :
    ∀ (rows : List RevenueRow) (st : RevenueFold),
      (rows.foldl (revenueStep now) st).totalRevenue
        = st.totalRevenue + (rows.map rowRevenue).sum := by
  intro rows
  induction rows with
  | nil => intro st; simp
  | cons r rest ih =>
      intro st
      show ((rest.foldl (revenueStep now) (revenueStep now st r)).totalRevenue) = _
      rw [ih (revenueStep now st r), revenueStep_totalRevenue]
      simp [List.map_cons, List.sum_cons]
      ring

/-- The totalTransactions of the whole fold counts every row. -/
lemma revenueFold_totalTransactions (now : ℚ) :
    ∀ (rows : List RevenueRow) (st : RevenueFold),
      (rows.foldl (revenueStep now) st).totalTransactions
        = st.totalTransactions + rows.length := by
  intro rows
  induction rows with
  | nil => intro st; simp
  | cons r rest ih =>
      intro st
      show ((rest.foldl (revenueStep now) (revenueStep now st r)).totalTransactions) = _
      rw [ih (revenueStep now st r), revenueStep_totalTransactions]
      simp [List.length_cons]
      omega

/-- A row without a truthy country leaves the buckets untouched. -/
lemma countryStep_skip (l : List CountryAgg) (r : RevenueRow)
    (h : rowHasCountry r = false) : countryStep l r = l := by
  unfold countryStep
  cases hc : r.country with
  | none => rfl
  | some c =>
      simp [rowHasCountry, hc] at h
      simp [h]

/-- Rows without a truthy country can be filtered away without changing
the byCountry buckets. -/
lemma countryRun_filter :
    ∀ (rows : List RevenueRow) (l : List CountryAgg),
      countryRun l rows = countryRun l (rows.filter rowHasCountry) := by
  intro rows
  induction rows with
  | nil => intro l; rfl
  | cons r rest ih =>
      intro l
      cases hb : rowHasCountry r
      · show countryRun (countryStep l r) rest = _
        rw [countryStep_skip l r hb, List.filter_cons_of_neg (by simp [hb])]
        exact ih l
      · show countryRun (countryStep l r) rest = _
        rw [List.filter_cons_of_pos (by simp [hb])]
        exact ih (countryStep l r)

/-- Bumping a bucket adds exactly the bumped revenue to the bucket sum. -/
lemma bumpCountry_sum (c : String) (rev cns : ℚ) :
    ∀ l : List CountryAgg, sumCA (bumpCountry l c rev cns) = sumCA l + rev := by
  intro l
  induction l with
  | nil => simp [bumpCountry, sumCA]
  | cons a as ih =>
      unfold bumpCountry
      by_cases h : a.country = c
      · simp [h, sumCA]
        ring
      · simp only [h, if_false, ite_false]
        simp [sumCA] at ih ⊢
        rw [ih]
        ring

/-- A truthy-country row adds its revenue to the bucket sum. -/
lemma countryStep_sum (l : List CountryAgg) (r : RevenueRow)
    (h : rowHasCountry r = true) :
    sumCA (countryStep l r) = sumCA l + rowRevenue r := by
  unfold countryStep
  cases hc : r.country with
  | none => simp [rowHasCountry, hc] at h
  | some c =>
      simp [rowHasCountry, hc] at h
      simp [h, bumpCountry_sum, rowRevenue]

/-- The bucket sum of a run equals the base sum plus the revenue of the
truthy-country rows. -/
lemma countryRun_sum :
    ∀ (rows : List RevenueRow) (l : List CountryAgg),
      sumCA (countryRun l rows)
        = sumCA l + ((rows.filter rowHasCountry).map rowRevenue).sum := by
  intro rows
  induction rows with
  | nil => intro l; simp [countryRun]
  | cons r rest ih =>
      intro l
      cases hb : rowHasCountry r
      · show sumCA (countryRun (countryStep l r) rest) = _
        rw [countryStep_skip l r hb, List.filter_cons_of_neg (by simp [hb]), ih]
      · show sumCA (countryRun (countryStep l r) rest) = _
        rw [List.filter_cons_of_pos (by simp [hb]), ih, countryStep_sum l r hb]
        simp [List.map_cons, List.sum_cons]
        ring

/-- Bumping preserves nonnegative bucket revenues. -/
lemma bumpCountry_nonneg (c : String) (rev cns : ℚ) (hrev : 0 ≤ rev) :
    ∀ l : List CountryAgg, (∀ a ∈ l, 0 ≤ a.revenue) →
      ∀ a ∈ bumpCountry l c rev cns, 0 ≤ a.revenue := by
  intro l
  induction l with
  | nil =>
      intro _ a ha
      simp [bumpCountry] at ha
      simp [ha]
      linarith
  | cons b bs ih =>
      intro h a ha
      unfold bumpCountry at ha
      by_cases hb : b.country = c
      · simp only [hb, if_true, ite_true, List.mem_cons] at ha
        rcases ha with ha | ha
        · have hb0 : 0 ≤ b.revenue := h b (by simp)
          simp [ha]
          linarith
        · exact h a (by simp [ha])
      · simp only [hb, if_false, ite_false, List.mem_cons] at ha
        rcases ha with ha | ha
        · exact h a (by simp [ha])
        · exact ih (fun x hx => h x (by simp [hx])) a ha

/-- A step preserves nonnegative bucket revenues when row revenues are
nonnegative. -/
lemma countryStep_nonneg (l : List CountryAgg) (r : RevenueRow)
    (hrev : 0 ≤ rowRevenue r) (h : ∀ a ∈ l, 0 ≤ a.revenue) :
    ∀ a ∈ countryStep l r, 0 ≤ a.revenue := by
  unfold countryStep
  cases hc : r.country with
  | none => exact h
  | some c =>
      by_cases hce : c = ""
      · simpa [hce] using h
      · simp only [hce, if_false, ite_false]
        exact bumpCountry_nonneg c _ _ (by simpa [rowRevenue] using hrev) l h

/-- A run preserves nonnegative bucket revenues when row revenues are
nonnegative. -/
lemma countryRun_nonneg :
    ∀ (rows : List RevenueRow) (l : List CountryAgg),
      (∀ r ∈ rows, 0 ≤ rowRevenue r) → (∀ a ∈ l, 0 ≤ a.revenue) →
      ∀ a ∈ countryRun l rows, 0 ≤ a.revenue := by
  intro rows
  induction rows with
  | nil => intro l _ h; exact h
  | cons r rest ih =>
      intro l hr h a ha
      exact ih (countryStep l r)
        (fun x hx => hr x (by simp [hx]))
        (countryStep_nonneg l r (hr r (by simp)) h) a ha

/-- Bumping preserves positive transaction counts. -/
lemma bumpCountry_pos (c : String) (rev cns : ℚ) :
    ∀ l : List CountryAgg, (∀ a ∈ l, 0 < a.transactions) →
      ∀ a ∈ bumpCountry l c rev cns, 0 < a.transactions := by
  intro l
  induction l with
  | nil =>
      intro _ a ha
      simp [bumpCountry] at ha
      simp [ha]
  | cons b bs ih =>
      intro h a ha
      unfold bumpCountry at ha
      by_cases hb : b.country = c
      · simp only [hb, if_true, ite_true, List.mem_cons] at ha
        rcases ha with ha | ha
        · simp [ha]
        · exact h a (by simp [ha])
      · simp only [hb, if_false, ite_false, List.mem_cons] at ha
        rcases ha with ha | ha
        · exact h a (by simp [ha])
        · exact ih (fun x hx => h x (by simp [hx])) a ha

/-- A step preserves positive transaction counts. -/
lemma countryStep_pos (l : List CountryAgg) (r : RevenueRow)
    (h : ∀ a ∈ l, 0 < a.transactions) :
    ∀ a ∈ countryStep l r, 0 < a.transactions := by
  unfold countryStep
  cases hc : r.country with
  | none => exact h
  | some c =>
      by_cases hce : c = ""
      · simpa [hce] using h
      · simp only [hce, if_false, ite_false]
        exact bumpCountry_pos c _ _ l h

/-- A run preserves positive transaction counts; in particular every bucket
ever created carries at least one transaction. -/
lemma countryRun_pos :
    ∀ (rows : List RevenueRow) (l : List CountryAgg),
      (∀ a ∈ l, 0 < a.transactions) →
      ∀ a ∈ countryRun l rows, 0 < a.transactions := by
  intro rows
  induction rows with
  | nil => intro l h; exact h
  | cons r rest ih =>
      intro l h a ha
      exact ih (countryStep l r) (countryStep_pos l r h) a ha

/-- Sum of a prefix of a nonnegative list is at most the full sum. -/
lemma sum_take_le (l : List ℚ) (n : ℕ) (h : ∀ x ∈ l, 0 ≤ x) :
    (l.take n).sum ≤ l.sum := by
  conv_rhs => rw [← List.take_append_drop n l]
  rw [List.sum_append]
  have h2 : 0 ≤ (l.drop n).sum :=
    List.sum_nonneg (fun x hx => h x (List.mem_of_mem_drop hx))
  linarith

/-- Members of the byCountry output come from fold buckets, keeping
revenue, coins and transactions and computing avgTransaction with the
guard. -/
lemma byCountryOut_mem (now : ℚ) (rows : List RevenueRow) (c : CountryRevenue)
    (hc : c ∈ byCountryOut now rows) :
    ∃ b ∈ (revenueFold now rows).byCountry,
      c = { country := b.country, revenue := b.revenue, coins := b.coins,
            transactions := b.transactions,
            avgTransaction :=
              if 0 < b.transactions then b.revenue / (b.transactions : ℚ)
              else 0 } := by
  have h1 := List.mem_of_mem_take hc
  have h2 := (sortByComparator_perm _ _).mem_iff.mp h1
  rcases List.mem_map.mp h2 with ⟨b, hb, hbc⟩
  exact ⟨b, hb, hbc.symm⟩

/-- C6: the revenue aggregation never divides by zero — every byCountry
entry stems from at least one transaction and carries
avgTransaction = revenue / transactions (0 if the count were zero), every
byMethod entry carries percentage = round2 of revenue / totalRevenue
guarded by totalRevenue > 0, the summary average is guarded the same way,
and the empty row set yields empty groupings and a zero summary. -/
theorem revenueAggregation_guards (now : ℚ) (rows : List RevenueRow) :
    (∀ c ∈ byCountryOut now rows, 0 < c.transactions
        ∧ c.avgTransaction =
            (if c.transactions = 0 then 0 else c.revenue / (c.transactions : ℚ)))
  ∧ (∀ m ∈ byMethodOut now rows,
        m.percentage = round2 (if 0 < (revenueFold now rows).totalRevenue
            then m.revenue / (revenueFold now rows).totalRevenue else 0))
  ∧ ((revenueSummary now rows).avgTransaction =
        (if (revenueSummary now rows).transactions = 0 then 0
         else (revenueSummary now rows).total
                / ((revenueSummary now rows).transactions : ℚ)))
  ∧ byCountryOut now [] = []
  ∧ byMethodOut now [] = []
  ∧ (revenueSummary now []).avgTransaction = 0
  ∧ (revenueSummary now []).transactions = 0 := by
  refine ⟨fun c hc => ?_, fun m hm => ?_, ?_, rfl, rfl, rfl, rfl⟩
  · rcases byCountryOut_mem now rows c hc with ⟨b, hb, hbc⟩
    have hpos : 0 < b.transactions := by
      have hrun : b ∈ countryRun [] rows := by
        rw [← revenueFold_byCountry_run now rows {}]
        exact hb
      exact countryRun_pos rows [] (by simp) b hrun
    constructor
    · rw [hbc]
      exact hpos
    · rw [hbc]
      simp [hpos, Nat.pos_iff_ne_zero.mp hpos]
  · unfold byMethodOut at hm
    have h2 := (sortByComparator_perm _ _).mem_iff.mp hm
    rcases List.mem_map.mp h2 with ⟨m1, hm1, hm1m⟩
    rcases List.mem_map.mp hm1 with ⟨b, hb, hbm1⟩
    rw [← hm1m, ← hbm1]
  · unfold revenueSummary
    by_cases h : (revenueFold now rows).totalTransactions = 0
    · simp [h]
    · simp only [h, if_false, ite_false]
      simp [Nat.pos_iff_ne_zero.mpr h]

/-- Rows used by the C6 witness. -/
def rowsC6 : List RevenueRow :=
  [{ country := some "US", payment_method := some "card", revenue := some 10 }]

/-- Country entry produced by the C6 witness rows. -/
def entryC6 : CountryRevenue :=
  { country := "US", revenue := 10, coins := 0, transactions := 1,
    avgTransaction := 10 }

/-- Evaluation of the byCountry output on the C6 witness rows. -/
lemma byCountryOut_rowsC6 : byCountryOut 0 rowsC6 = [entryC6] := by
  norm_num [byCountryOut, revenueFold, revenueStep, bumpCountry, bumpDay,
    bumpMethod, jsOrNum, sortByComparator, insertByRev, rowsC6, entryC6,
    dayKeyOf, List.foldl]

/-- C6 witness: the guard theorem applied to a concrete one-row input whose
single country entry has one transaction and average 10. -/
theorem revenueAggregation_guards_witness :
    0 < entryC6.transactions
  ∧ entryC6.avgTransaction =
      (if entryC6.transactions = 0 then 0
       else entryC6.revenue / (entryC6.transactions : ℚ)) :=
  (revenueAggregation_guards 0 rowsC6).1 entryC6
    (by rw [byCountryOut_rowsC6]; simp)

/-- The byCountry component of the fold, as a run from the empty list. -/
lemma revenueFold_byCountry (now : ℚ) (rows : List RevenueRow) :
    (revenueFold now rows).byCountry = countryRun [] rows :=
  revenueFold_byCountry_run now rows {}

/-- The summary total is the sum of all row revenues. -/
lemma revenueFold_total (now : ℚ) (rows : List RevenueRow) :
    (revenueFold now rows).totalRevenue = (rows.map rowRevenue).sum := by
  simpa using revenueFold_totalRevenue now rows {}

/-- The summary transaction count is the number of rows. -/
lemma revenueFold_count (now : ℚ) (rows : List RevenueRow) :
    (revenueFold now rows).totalTransactions = rows.length := by
  simpa using revenueFold_totalTransactions now rows {}

/-- Sum over a prefix of the response entries is bounded by the full sum
when the entry revenues are nonnegative. -/
lemma sumCR_take_le (s : List CountryRevenue) (n : ℕ)
    (h : ∀ x ∈ s, 0 ≤ x.revenue) : sumCR (s.take n) ≤ sumCR s := by
  unfold sumCR
  rw [List.map_take]
  refine sum_take_le _ n ?_
  intro x hx
  rcases List.mem_map.mp hx with ⟨c, hc, hcx⟩
  rw [← hcx]
  exact h c hc

/-- Permuting response entries preserves their revenue sum. -/
lemma sumCR_perm {s t : List CountryRevenue} (h : List.Perm s t) :
    sumCR s = sumCR t :=
  (h.map _).sum_eq

/-- Dropping rows via a filter can only lower a nonnegative revenue sum. -/
lemma sum_map_filter_le (p : RevenueRow → Bool) (rows : List RevenueRow)
    (h : ∀ r ∈ rows, 0 ≤ rowRevenue r) :
    ((rows.filter p).map rowRevenue).sum ≤ (rows.map rowRevenue).sum := by
  induction rows with
  | nil => simp
  | cons r rest ih =>
      have hr := h r (by simp)
      have ih2 := ih (fun x hx => h x (by simp [hx]))
      by_cases hp : p r
      · simp [List.filter_cons, hp]
        linarith
      · simp [List.filter_cons, hp]
        linarith

/-- The revenue carried by the byCountry output is bounded by the revenue
carried by the fold buckets, under nonnegative row revenues. -/
lemma sumCR_byCountryOut (now : ℚ) (rows : List RevenueRow)
    (hnn : ∀ r ∈ rows, 0 ≤ rowRevenue r) :
    sumCR (byCountryOut now rows) ≤ sumCA ((revenueFold now rows).byCountry) := by
  have hnnL : ∀ b ∈ (revenueFold now rows).byCountry, 0 ≤ b.revenue := by
    rw [revenueFold_byCountry]
    exact countryRun_nonneg rows [] hnn (by simp)
  refine le_trans (sumCR_take_le _ 20 ?_) (le_of_eq ?_)
  · intro x hx
    have hx2 := (sortByComparator_perm _ _).mem_iff.mp hx
    rcases List.mem_map.mp hx2 with ⟨b, hb, hbx⟩
    rw [← hbx]
    exact hnnL b hb
  · refine Eq.trans (sumCR_perm (sortByComparator_perm _ _)) ?_
    unfold sumCR sumCA
    rw [List.map_map]
    rfl

/-- C10 (amended): each queried row adds its revenue to the summary total
and increments the summary transaction count; a row without a truthy
country contributes to no byCountry entry (filtering such rows away leaves
the byCountry output unchanged); and when every row revenue is
nonnegative, the summed revenue of the returned top-20 byCountry entries
is at most the summary total. -/
theorem revenueByCountry_bounds (now : ℚ) (rows : List RevenueRow) :
    (revenueFold now rows).totalRevenue = (rows.map rowRevenue).sum
  ∧ (revenueFold now rows).totalTransactions = rows.length
  ∧ byCountryOut now rows = byCountryOut now (rows.filter rowHasCountry)
  ∧ ((∀ r ∈ rows, 0 ≤ rowRevenue r) →
      sumCR (byCountryOut now rows) ≤ (revenueFold now rows).totalRevenue) := by
  refine ⟨revenueFold_total now rows, revenueFold_count now rows, ?_, fun hnn => ?_⟩
  · unfold byCountryOut
    rw [revenueFold_byCountry now rows,
      revenueFold_byCountry now (rows.filter rowHasCountry),
      countryRun_filter rows []]
  · refine le_trans (sumCR_byCountryOut now rows hnn) ?_
    rw [revenueFold_byCountry now rows, countryRun_sum rows [],
      revenueFold_total now rows]
    have h2 := sum_map_filter_le rowHasCountry rows hnn
    simp [sumCA]
    linarith

/-- Row with a negative revenue and no country. -/
def rowNegC10 : RevenueRow := { revenue := some (-1) }

/-- One-row input with a negative uncountried revenue. -/
def rowsNegC10 : List RevenueRow := [rowNegC10]

/-- Row with country US and revenue 10. -/
def rowUS10 : RevenueRow := { country := some "US", revenue := some 10 }

/-- Row with no country and no revenue. -/
def rowNoCountry : RevenueRow := {}

/-- Two-row input: one countried revenue row, one bare row. -/
def rowsEqC10 : List RevenueRow := [rowUS10, rowNoCountry]

/-- Evaluation of the byCountry output on the negative one-row input. -/
lemma byCountryOut_rowsNegC10 : byCountryOut 0 rowsNegC10 = [] := by
  norm_num [byCountryOut, revenueFold, revenueStep, jsOrNum, rowsNegC10,
    rowNegC10, List.foldl, sortByComparator]

/-- Evaluation of the summary total on the negative one-row input. -/
lemma totalRevenue_rowsNegC10 : (revenueFold 0 rowsNegC10).totalRevenue = -1 := by
  norm_num [revenueFold, revenueStep, jsOrNum, rowsNegC10, rowNegC10,
    List.foldl]

/-- Evaluation of the byCountry output on the two-row input. -/
lemma byCountryOut_rowsEqC10 :
    byCountryOut 0 rowsEqC10 =
      [{ country := "US", revenue := 10, coins := 0, transactions := 1,
         avgTransaction := 10 }] := by
  norm_num [byCountryOut, revenueFold, revenueStep, bumpCountry, bumpDay,
    bumpMethod, jsOrNum, sortByComparator, insertByRev, rowsEqC10, rowUS10,
    rowNoCountry, dayKeyOf, List.foldl]

/-- Evaluation of the summary total on the two-row input. -/
lemma totalRevenue_rowsEqC10 : (revenueFold 0 rowsEqC10).totalRevenue = 10 := by
  simp [revenueFold, revenueStep, bumpCountry, bumpDay, bumpMethod,
    jsOrNum, rowsEqC10, rowUS10, rowNoCountry, dayKeyOf, List.foldl]

/-- C10 counterexample: with a single country-less row of revenue -1 the
byCountry revenue sum (0) exceeds the summary total (-1), refuting the
unconditional inequality; and with rows [US:10, country-less:0] the sums
are equal although not every row carries a country, refuting the claimed
equality condition. -/
theorem byCountry_total_counterexample :
    ¬ (sumCR (byCountryOut 0 rowsNegC10) ≤ (revenueFold 0 rowsNegC10).totalRevenue)
  ∧ sumCR (byCountryOut 0 rowsEqC10) = (revenueFold 0 rowsEqC10).totalRevenue
  ∧ rowNoCountry.country = none ∧ rowNoCountry ∈ rowsEqC10 := by
  refine ⟨?_, ?_, rfl, by simp [rowsEqC10]⟩
  · rw [byCountryOut_rowsNegC10, totalRevenue_rowsNegC10]
    norm_num [sumCR]
  · rw [byCountryOut_rowsEqC10, totalRevenue_rowsEqC10]
    norm_num [sumCR]

/-- C10 witness: the amended bound applied to the concrete two-row input,
whose revenues are nonnegative. -/
theorem revenueByCountry_bounds_witness :
    sumCR (byCountryOut 0 rowsEqC10) ≤ (revenueFold 0 rowsEqC10).totalRevenue := by
  refine (revenueByCountry_bounds 0 rowsEqC10).2.2.2 ?_
  intro r hr
  simp [rowsEqC10] at hr
  rcases hr with hr | hr <;> rw [hr] <;>
    norm_num [rowRevenue, jsOrNum, rowUS10, rowNoCountry]

end Aniflixx
